import Mathlib

/-!
Verification development for the Am-I-Online connectivity monitor.

The repository contains an Angular connectivity service in three variants:
* `src/src/app/services/connectivity.service.ts` — the plain service
  (no reentrancy guard, no HTTP fallback list); embedded below in
  namespace `ConnectivityService`.
* an HTTPS service with an HTTP fallback list but no reentrancy guard
  (`src/unnamed/part_003`); embedded in namespace `FallbackService`.
* an HTTPS service with an HTTP fallback list and a reentrancy guard in
  `checkConnectivity` (`src/unnamed/part_002`); embedded in namespace
  `GuardedService`.

The shared data model (`ConnectivityEndpoint`, `ConnectivityStatus`,
`ConnectionRecord`), the bounded history (`addToHistory`), the running
min/max tracker (`updateResponseTimeTracking`), the per-endpoint check
(`checkEndpoint`) and the computed statistics (`uptimePercentage`,
`successRate`, `averageResponseTime`) are byte-for-byte identical across
the variants and are embedded once, at top level.

Modelling conventions:
* JavaScript numbers that hold counters, timestamps and millisecond
  durations are modelled as `Nat` (all are non-negative integers in the
  source); the statistics, which divide and round, are computed in `ℚ`
  with `Math.round` modelled exactly (round half towards +∞).
* `fetch` is nondeterministic: each probe takes a `ProbeInput` that
  supplies, per attempt index, the outcome of the fetch (`FetchResult`)
  and the value of `performance.now()` when it settled.  A rejected
  promise (network failure or timeout abort triggered by the
  `AbortController`) is `FetchResult.fetchFailure`.
* `new Date()` is supplied as `ProbeInput.dateNow`.
* `performance.now()` is monotone, so the elapsed time
  `endTime - startTime` is a natural number.
-/

/-- Embeds interface `ConnectivityEndpoint` (`connectivity.service.ts`
lines 6-11): name, url, list of accepted status codes, optional timeout. -/
structure ConnectivityEndpoint where
  name : String
  url : String
  expectedStatus : List Nat
  timeout : Option Nat
deriving DecidableEq, Repr

/-- Embeds interface `ConnectivityStatus` (lines 13-19).  `lastChecked`
is a `Date | null`, modelled as `Option Nat`. -/
structure ConnectivityStatus where
  isOnline : Bool
  lastChecked : Option Nat
  responseTime : Option Nat
  endpoint : Option String
  error : Option String
deriving DecidableEq, Repr

/-- Embeds interface `ConnectionRecord` (lines 21-27). -/
structure ConnectionRecord where
  timestamp : Nat
  isOnline : Bool
  responseTime : Option Nat
  endpoint : Option String
  error : Option String
deriving DecidableEq, Repr

/-- The private signals of the service (`connectivity.service.ts`
lines 63-73 / `part_002` lines 113-123), gathered into one state
record.  Angular signals are plain mutable cells here. -/
structure ConnectivityState where
  isOnline : Bool
  lastChecked : Option Nat
  responseTime : Option Nat
  currentEndpoint : Option String
  error : Option String
  isChecking : Bool
  totalChecks : Nat
  successfulChecks : Nat
  connectionHistory : List ConnectionRecord
  minResponseTime : Option Nat
  maxResponseTime : Option Nat
deriving DecidableEq, Repr

/-- The signal initial values (lines 63-73): `navigator.onLine` is an
environment input, everything else starts at `null` / `false` / `0` / `[]`. -/
def initialState (navigatorOnLine : Bool) : ConnectivityState :=
  { isOnline := navigatorOnLine
    lastChecked := none
    responseTime := none
    currentEndpoint := none
    error := none
    isChecking := false
    totalChecks := 0
    successfulChecks := 0
    connectionHistory := []
    minResponseTime := none
    maxResponseTime := none }

/-- JavaScript `Math.round`: round half towards positive infinity,
`Math.round x = ⌊x + 1/2⌋`. -/
def jsRound (q : ℚ) : ℤ := ⌊q + 1 / 2⌋

/-- Embeds the `uptimePercentage` computed signal (lines 89-93):
`total > 0 ? Math.round((successful / total) * 100) : 0`. -/
def uptimePercentage (total successful : Nat) : ℤ :=
  if total > 0 then jsRound ((successful : ℚ) / (total : ℚ) * 100) else 0

/-- Embeds the `successRate` computed signal (lines 95-99); its body is
identical to `uptimePercentage`. -/
def successRate (total successful : Nat) : ℤ :=
  if total > 0 then jsRound ((successful : ℚ) / (total : ℚ) * 100) else 0

/-- JavaScript truthiness of the `responseTime` field of a record:
`r.responseTime` is truthy iff it is neither `null` nor `0`. -/
def rtTruthy : Option Nat → Bool
  | none => false
  | some n => n != 0

/-- Embeds the `averageResponseTime` computed signal (lines 101-106):
filter `r.isOnline && r.responseTime` (truthiness!), return 0 on an
empty filter result, else `Math.round(total / onlineRecords.length)`
where `total` sums `r.responseTime || 0`. -/
def averageResponseTime (history : List ConnectionRecord) : ℤ :=
  let onlineRecords := history.filter (fun r => r.isOnline && rtTruthy r.responseTime)
  if onlineRecords.length = 0 then 0
  else
    let total := onlineRecords.foldl (fun sum r => sum + r.responseTime.getD 0) (0 : Nat)
    jsRound ((total : ℚ) / (onlineRecords.length : ℚ))

/-- Written from the spec, for comparison with `averageResponseTime`:
"`averageResponseTimeMs = round(mean(responseTimeMs for successful
records))`, 0 when no successful records exist" — the mean over ALL
records with `isOnline = true`, with no truthiness filter on the
response time. -/
def averageResponseTimeSpec (history : List ConnectionRecord) : ℤ :=
  let succRecords := history.filter (fun r => r.isOnline)
  if succRecords.length = 0 then 0
  else
    let total := (succRecords.map (fun r => r.responseTime.getD 0)).sum
    jsRound ((total : ℚ) / (succRecords.length : ℚ))

/-- Embeds `addToHistory` (lines 223-229): append the record and keep
only the last 100 entries (`slice(-100)` keeps the final
`min 100 length` elements). -/
def addToHistory (history : List ConnectionRecord) (record : ConnectionRecord) :
    List ConnectionRecord :=
  let newHistory := history ++ [record]
  newHistory.drop (newHistory.length - 100)

/-- The `minResponseTime` update function (lines 207-212):
`current === null || responseTime < current ? responseTime : current`. -/
def updateMinRT (current : Option Nat) (responseTime : Nat) : Option Nat :=
  match current with
  | none => some responseTime
  | some c => if responseTime < c then some responseTime else some c

/-- The `maxResponseTime` update function (lines 215-220). -/
def updateMaxRT (current : Option Nat) (responseTime : Nat) : Option Nat :=
  match current with
  | none => some responseTime
  | some c => if responseTime > c then some responseTime else some c

/-- Embeds `updateResponseTimeTracking` (lines 205-221): update the two
running-extrema signals from the new response time.  It reads neither
`connectionHistory` nor any windowed view of it. -/
def updateResponseTimeTracking (s : ConnectivityState) (responseTime : Nat) :
    ConnectivityState :=
  { s with
    minResponseTime := updateMinRT s.minResponseTime responseTime
    maxResponseTime := updateMaxRT s.maxResponseTime responseTime }

/-- The observable outcome of one `fetch` call in `checkEndpoint`.
`opaque` is a resolved response with `type === 'opaque'` (no readable
status); `status c` is a resolved response with readable status `c`;
`fetchFailure` is a rejected promise — network failure or the timeout
abort fired by the `AbortController` (lines 232-233). -/
inductive FetchResult where
  | opaqueResponse : FetchResult
  | status : Nat → FetchResult
  | fetchFailure : String → FetchResult
deriving DecidableEq, Repr

/-- Embeds `checkEndpoint` (lines 231-256) modulo the timer plumbing:
an opaque response is accepted as-is; a readable status is accepted iff
it is in `endpoint.expectedStatus`, otherwise `Unexpected status` is
thrown; a rejected fetch rethrows its error. -/
def checkEndpoint (endpoint : ConnectivityEndpoint) (r : FetchResult) :
    Except String FetchResult :=
  match r with
  | .opaqueResponse => .ok r
  | .status code =>
      if endpoint.expectedStatus.contains code then .ok r
      else .error ("Unexpected status: " ++ toString code)
  | .fetchFailure msg => .error msg

/-- Whether `checkEndpoint` resolves (the `try` body continues) rather
than throws (the `catch` advances to the next endpoint). -/
def fetchSuccess (endpoint : ConnectivityEndpoint) (r : FetchResult) : Bool :=
  match checkEndpoint endpoint r with
  | .ok _ => true
  | .error _ => false

/-- The environment a single `checkConnectivity()` call observes:
`results i` is the fetch outcome and the `performance.now()` settle time
of the `i`-th endpoint attempt of this probe, `startTime` is
`performance.now()` at the top of the probe, and `dateNow` is the value
of `new Date()` during the probe. -/
structure ProbeInput where
  results : Nat → FetchResult × Nat
  startTime : Nat
  dateNow : Nat

/-- `window.location`, as read by `shouldTryHttpFallback`. -/
structure WindowLocation where
  protocol : String
  hostname : String
deriving DecidableEq, Repr

/-- Embeds `shouldTryHttpFallback` (`part_002` lines 296-300 /
`part_003` lines 277-281): a pure environment check on
`window.location`, with no network access. -/
def shouldTryHttpFallback (loc : WindowLocation) : Bool :=
  loc.protocol == "http:" || loc.hostname == "localhost"

/-- The message set by the all-endpoints-failed path. -/
def allFailedMsg : String := "All connectivity endpoints failed"

/-- The success-path state update shared by every variant's endpoint
loop (`connectivity.service.ts` lines 144-165 / `part_003` lines
233-253): set `currentEndpoint`, compute
`responseTime = Math.round(endTime - startTime)`, run
`updateResponseTimeTracking`, publish the online status, bump
`successfulChecks`, clear `isChecking`, append a success record.
(`part_002`'s variant, which does not clear `isChecking` here, is
`GuardedService.applySuccess` below.) -/
def applySuccess (inp : ProbeInput) (e : ConnectivityEndpoint) (i : Nat)
    (s : ConnectivityState) : ConnectivityState :=
  let responseTime := (inp.results i).2 - inp.startTime
  let s1 := updateResponseTimeTracking { s with currentEndpoint := some e.name } responseTime
  let s2 := { s1 with
    isOnline := true
    lastChecked := some inp.dateNow
    responseTime := some responseTime
    successfulChecks := s1.successfulChecks + 1
    isChecking := false }
  let record : ConnectionRecord :=
    { timestamp := inp.dateNow, isOnline := true, responseTime := some responseTime
      endpoint := some e.name, error := none }
  { s2 with connectionHistory := addToHistory s2.connectionHistory record }

/-- The `ConnectivityStatus` returned on success (lines 167-172). -/
def successStatus (inp : ProbeInput) (e : ConnectivityEndpoint) (i : Nat) :
    ConnectivityStatus :=
  { isOnline := true, lastChecked := some inp.dateNow
    responseTime := some ((inp.results i).2 - inp.startTime)
    endpoint := some e.name, error := none }

/-- Embeds the `for (const endpoint of ...)` loop of
`checkConnectivity` (`connectivity.service.ts` lines 142-178), which is
also the body of `tryEndpoints` in `part_003` (lines 230-275): attempt
the endpoints in declared order, each at most once; on the first
attempt whose `checkEndpoint` resolves, perform the success updates and
stop; a thrown error advances to the next endpoint.  `i` is the index
of the next attempt in `inp.results`.  Returns the updated state, the
success status if any, and the trace of endpoint names attempted. -/
def tryEndpoints (inp : ProbeInput) :
    List ConnectivityEndpoint → Nat → ConnectivityState →
    ConnectivityState × Option ConnectivityStatus × List String
  | [], _, s => (s, none, [])
  | e :: rest, i, s =>
    match checkEndpoint e (inp.results i).1 with
    | .ok _ => (applySuccess inp e i s, some (successStatus inp e i), [e.name])
    | .error _ =>
      let out := tryEndpoints inp rest (i + 1) { s with currentEndpoint := some e.name }
      (out.1, out.2.1, e.name :: out.2.2)

/-- The all-endpoints-failed state update (`connectivity.service.ts`
lines 180-194 / `part_003` lines 205-219): go offline, stamp
`lastChecked`, null the response time, set the error, clear
`isChecking`, append a failure record with `endpoint: null`.
`currentEndpoint` is not touched here. -/
def applyAllFailed (inp : ProbeInput) (s : ConnectivityState) : ConnectivityState :=
  let s1 := { s with
    isOnline := false
    lastChecked := some inp.dateNow
    responseTime := none
    error := some allFailedMsg
    isChecking := false }
  let record : ConnectionRecord :=
    { timestamp := inp.dateNow, isOnline := false, responseTime := none
      endpoint := none, error := some allFailedMsg }
  { s1 with connectionHistory := addToHistory s1.connectionHistory record }

/-- The `ConnectivityStatus` returned when everything failed
(lines 196-202). -/
def allFailedStatus (inp : ProbeInput) : ConnectivityStatus :=
  { isOnline := false, lastChecked := some inp.dateNow, responseTime := none
    endpoint := none, error := some allFailedMsg }

namespace ConnectivityService

/-- The compiled-in endpoint list of
`src/src/app/services/connectivity.service.ts` (lines 35-60). -/
def endpoints : List ConnectivityEndpoint :=
  [ { name := "Google", url := "http://google.com/generate_204"
      expectedStatus := [200, 204], timeout := some 3000 }
  , { name := "Cloudflare", url := "http://cp.cloudflare.com/generate_204"
      expectedStatus := [200, 204], timeout := some 3000 }
  , { name := "Microsoft", url := "http://edge-http.microsoft.com/captiveportal/generate_204"
      expectedStatus := [200, 204], timeout := some 3000 }
  , { name := "Ubuntu", url := "http://connectivity-check.ubuntu.com"
      expectedStatus := [200], timeout := some 3000 } ]

/-- Embeds `checkConnectivity` of the plain service
(`connectivity.service.ts` lines 135-203): unconditionally raise
`isChecking`, clear the error, increment `totalChecks`, run the
endpoint loop, and on exhaustion take the failure path.  The endpoint
list is the `#endpoints` field, passed as a parameter. -/
def checkConnectivity (eps : List ConnectivityEndpoint) (inp : ProbeInput)
    (s : ConnectivityState) :
    ConnectivityState × ConnectivityStatus × List String :=
  let s0 := { s with isChecking := true, error := none, totalChecks := s.totalChecks + 1 }
  match tryEndpoints inp eps 0 s0 with
  | (s1, some st, trace) => (s1, st, trace)
  | (s1, none, trace) => (applyAllFailed inp s1, allFailedStatus inp, trace)

/-- A sequence of probes: the state left by folding `checkConnectivity`
over the probe inputs, as the 30-second scheduler or `manualCheck` does. -/
def runProbes (eps : List ConnectivityEndpoint) (inputs : List ProbeInput)
    (s : ConnectivityState) : ConnectivityState :=
  inputs.foldl (fun st inp => (checkConnectivity eps inp st).1) s

end ConnectivityService

/-- The HTTPS endpoint list shared by `part_002` (lines 34-71) and
`part_003`. -/
def httpsEndpoints : List ConnectivityEndpoint :=
  [ { name := "Google", url := "https://google.com/generate_204"
      expectedStatus := [200, 204], timeout := some 3000 }
  , { name := "Cloudflare", url := "https://cp.cloudflare.com/generate_204"
      expectedStatus := [200, 204], timeout := some 3000 }
  , { name := "Microsoft", url := "https://edge-http.microsoft.com/captiveportal/generate_204"
      expectedStatus := [200, 204], timeout := some 3000 }
  , { name := "Ubuntu", url := "https://connectivity-check.ubuntu.com"
      expectedStatus := [200], timeout := some 3000 }
  , { name := "Apple", url := "https://captive.apple.com/hotspot-detect.html"
      expectedStatus := [200], timeout := some 3000 }
  , { name := "Mozilla", url := "https://detectportal.firefox.com/success.txt"
      expectedStatus := [200], timeout := some 3000 } ]

/-- The HTTP fallback endpoint list shared by `part_002` (lines 74-111)
and `part_003`. -/
def httpFallbackEndpoints : List ConnectivityEndpoint :=
  [ { name := "Google (HTTP)", url := "http://google.com/generate_204"
      expectedStatus := [200, 204], timeout := some 3000 }
  , { name := "Cloudflare (HTTP)", url := "http://cp.cloudflare.com/generate_204"
      expectedStatus := [200, 204], timeout := some 3000 }
  , { name := "Microsoft (HTTP)", url := "http://edge-http.microsoft.com/captiveportal/generate_204"
      expectedStatus := [200, 204], timeout := some 3000 }
  , { name := "Ubuntu (HTTP)", url := "http://connectivity-check.ubuntu.com"
      expectedStatus := [200], timeout := some 3000 }
  , { name := "Apple (HTTP)", url := "http://captive.apple.com/hotspot-detect.html"
      expectedStatus := [200], timeout := some 3000 }
  , { name := "Mozilla (HTTP)", url := "http://detectportal.firefox.com/success.txt"
      expectedStatus := [200], timeout := some 3000 } ]

namespace FallbackService

/-- Embeds `checkConnectivity` of `part_003` (lines 183-228): no
reentrancy guard; increment `totalChecks` up front; try the HTTPS
endpoints (its `tryEndpoints`, lines 230-275, is the shared
`tryEndpoints` above); if that fails and `shouldTryHttpFallback()`
holds, try the HTTP fallback list (fresh fetches, so the attempt
indices continue past `eps.length`); otherwise take the failure path.
The last returned component records whether the fallback list was
entered (whether control reached `tryEndpoints(this.#fallbackEndpoints,
startTime)`). -/
def checkConnectivity (eps fallback : List ConnectivityEndpoint)
    (loc : WindowLocation) (inp : ProbeInput) (s : ConnectivityState) :
    ConnectivityState × ConnectivityStatus × List String × Bool :=
  let s0 := { s with isChecking := true, error := none, totalChecks := s.totalChecks + 1 }
  match tryEndpoints inp eps 0 s0 with
  | (s1, some st, trace) => (s1, st, trace, false)
  | (s1, none, trace) =>
    if shouldTryHttpFallback loc then
      match tryEndpoints inp fallback eps.length s1 with
      | (s2, some st, trace2) => (s2, st, trace ++ trace2, true)
      | (s2, none, trace2) => (applyAllFailed inp s2, allFailedStatus inp, trace ++ trace2, true)
    else
      (applyAllFailed inp s1, allFailedStatus inp, trace, false)

end FallbackService

namespace GuardedService

/-- The success-path update of `part_002`'s `tryEndpoints` (lines
253-273): identical to the shared `applySuccess` except that it does
NOT clear `isChecking` — in this variant the caller clears it. -/
def applySuccess (inp : ProbeInput) (e : ConnectivityEndpoint) (i : Nat)
    (s : ConnectivityState) : ConnectivityState :=
  let responseTime := (inp.results i).2 - inp.startTime
  let s1 := updateResponseTimeTracking { s with currentEndpoint := some e.name } responseTime
  let s2 := { s1 with
    isOnline := true
    lastChecked := some inp.dateNow
    responseTime := some responseTime
    successfulChecks := s1.successfulChecks + 1 }
  let record : ConnectionRecord :=
    { timestamp := inp.dateNow, isOnline := true, responseTime := some responseTime
      endpoint := some e.name, error := none }
  { s2 with connectionHistory := addToHistory s2.connectionHistory record }

/-- Embeds `tryEndpoints` of `part_002` (lines 251-294). -/
def tryEndpoints (inp : ProbeInput) :
    List ConnectivityEndpoint → Nat → ConnectivityState →
    ConnectivityState × Option ConnectivityStatus × List String
  | [], _, s => (s, none, [])
  | e :: rest, i, s =>
    match checkEndpoint e (inp.results i).1 with
    | .ok _ => (applySuccess inp e i s, some (successStatus inp e i), [e.name])
    | .error _ =>
      let out := tryEndpoints inp rest (i + 1) { s with currentEndpoint := some e.name }
      (out.1, out.2.1, e.name :: out.2.2)

/-- The status a guarded (reentrant) call returns (lines 187-193): the
current in-flight view of the state, with no mutation. -/
def currentStatus (s : ConnectivityState) : ConnectivityStatus :=
  { isOnline := s.isOnline, lastChecked := s.lastChecked
    responseTime := s.responseTime, endpoint := s.currentEndpoint, error := s.error }

/-- Embeds `checkConnectivity` of `part_002` (lines 184-249): if
`isChecking` is already set, return the current status without touching
anything (lines 186-194); otherwise raise `isChecking`, clear the
error, try the HTTPS list, on success bump `totalChecks` and clear
`isChecking`; else, if `shouldTryHttpFallback()`, try the HTTP fallback
list the same way; else take the failure path (which bumps
`totalChecks`, lines 223-240).  The last component records whether the
fallback list was entered. -/
def checkConnectivity (eps fallback : List ConnectivityEndpoint)
    (loc : WindowLocation) (inp : ProbeInput) (s : ConnectivityState) :
    ConnectivityState × ConnectivityStatus × List String × Bool :=
  if s.isChecking then (s, currentStatus s, [], false)
  else
    let s0 := { s with isChecking := true, error := none }
    match tryEndpoints inp eps 0 s0 with
    | (s1, some st, trace) =>
      ({ s1 with totalChecks := s1.totalChecks + 1, isChecking := false }, st, trace, false)
    | (s1, none, trace) =>
      if shouldTryHttpFallback loc then
        match tryEndpoints inp fallback eps.length s1 with
        | (s2, some st, trace2) =>
          ({ s2 with totalChecks := s2.totalChecks + 1, isChecking := false },
           st, trace ++ trace2, true)
        | (s2, none, trace2) =>
          let s3 := { s2 with totalChecks := s2.totalChecks + 1 }
          (applyAllFailed inp s3, allFailedStatus inp, trace ++ trace2, true)
      else
        let s3 := { s1 with totalChecks := s1.totalChecks + 1 }
        (applyAllFailed inp s3, allFailedStatus inp, trace, false)

/-- A sequence of probes against the guarded service. -/
def runProbes (eps fallback : List ConnectivityEndpoint) (loc : WindowLocation)
    (inputs : List ProbeInput) (s : ConnectivityState) : ConnectivityState :=
  inputs.foldl (fun st inp => (checkConnectivity eps fallback loc inp st).1) s

end GuardedService

/-! ### Characterizing the endpoint loop -/

/-- The absolute index and the endpoint of the first attempt in `eps`
(attempt indices starting at `i`) whose fetch outcome `checkEndpoint`
accepts, if any. -/
def firstSuccess (inp : ProbeInput) :
    List ConnectivityEndpoint → Nat → Option (Nat × ConnectivityEndpoint)
  | [], _ => none
  | e :: rest, i =>
    if fetchSuccess e (inp.results i).1 then some (i, e)
    else firstSuccess inp rest (i + 1)

/-- The state left by a pass over `eps` in which every attempt failed:
only `currentEndpoint` changes, to the last attempted endpoint's name. -/
def failThroughState (eps : List ConnectivityEndpoint) (s : ConnectivityState) :
    ConnectivityState :=
  match eps.getLast? with
  | none => s
  | some e => { s with currentEndpoint := some e.name }

lemma failThroughState_cons (e : ConnectivityEndpoint) (rest : List ConnectivityEndpoint)
    (s : ConnectivityState) :
    failThroughState rest { s with currentEndpoint := some e.name } =
      failThroughState (e :: rest) s := by
  cases rest with
  | nil => cases s; simp [failThroughState]
  | cons f t =>
    unfold failThroughState
    rw [List.getLast?_cons_cons]
    cases h : (f :: t).getLast? with
    | none => simp at h
    | some z => cases s; rfl

lemma applySuccess_update (inp : ProbeInput) (e : ConnectivityEndpoint) (k : Nat)
    (s : ConnectivityState) (x : Option String) :
    applySuccess inp e k { s with currentEndpoint := x } = applySuccess inp e k s := by
  cases s; rfl

lemma firstSuccess_le (inp : ProbeInput) (eps : List ConnectivityEndpoint) :
    ∀ i k e, firstSuccess inp eps i = some (k, e) → i ≤ k := by
  induction eps with
  | nil => intro i k e h; cases h
  | cons e0 rest ih =>
    intro i k e h
    unfold firstSuccess at h
    by_cases hs : fetchSuccess e0 (inp.results i).1
    · simp [hs] at h
      omega
    · simp [hs] at h
      exact Nat.le_of_succ_le (ih (i + 1) k e h)


lemma tryEndpoints_of_none (inp : ProbeInput) (eps : List ConnectivityEndpoint) :
    ∀ i s, firstSuccess inp eps i = none →
      tryEndpoints inp eps i s =
        (failThroughState eps s, none, eps.map (fun e => e.name)) := by
  induction eps with
  | nil => intro i s _; rfl
  | cons e0 rest ih =>
    intro i s h
    unfold firstSuccess at h
    by_cases hs : fetchSuccess e0 (inp.results i).1
    · simp [hs] at h
    · simp [hs] at h
      unfold tryEndpoints
      cases hc : checkEndpoint e0 (inp.results i).1 with
      | ok v => exact absurd (by simp [fetchSuccess, hc]) hs
      | error msg =>
        simp only [ih (i + 1) _ h, failThroughState_cons, List.map_cons]

lemma tryEndpoints_of_some (inp : ProbeInput) (eps : List ConnectivityEndpoint) :
    ∀ i s k e, firstSuccess inp eps i = some (k, e) →
      tryEndpoints inp eps i s =
        (applySuccess inp e k s, some (successStatus inp e k),
          (eps.take (k + 1 - i)).map (fun x => x.name)) := by
  induction eps with
  | nil => intro i s k e h; cases h
  | cons e0 rest ih =>
    intro i s k e h
    unfold firstSuccess at h
    by_cases hs : fetchSuccess e0 (inp.results i).1
    · simp [hs] at h
      obtain ⟨hk, he⟩ := h
      subst hk; subst he
      unfold tryEndpoints
      unfold fetchSuccess at hs
      cases hc : checkEndpoint e0 (inp.results i).1 with
      | ok v =>
        have h1 : i + 1 - i = 1 := by omega
        simp [h1, List.take]
      | error msg => rw [hc] at hs; simp at hs
    · simp [hs] at h
      have hik : i + 1 ≤ k := firstSuccess_le inp rest (i + 1) k e h
      unfold tryEndpoints
      cases hc : checkEndpoint e0 (inp.results i).1 with
      | ok v => exact absurd (by simp [fetchSuccess, hc]) hs
      | error msg =>
        simp only [ih (i + 1) _ k e h, applySuccess_update]
        have h1 : k + 1 - i = (k + 1 - (i + 1)) + 1 := by omega
        rw [h1, List.take_succ_cons, List.map_cons]

lemma guardedApplySuccess_update (inp : ProbeInput) (e : ConnectivityEndpoint)
    (k : Nat) (s : ConnectivityState) (x : Option String) :
    GuardedService.applySuccess inp e k { s with currentEndpoint := x } =
      GuardedService.applySuccess inp e k s := by
  cases s; rfl

lemma guardedTryEndpoints_of_none (inp : ProbeInput)
    (eps : List ConnectivityEndpoint) :
    ∀ i s, firstSuccess inp eps i = none →
      GuardedService.tryEndpoints inp eps i s =
        (failThroughState eps s, none, eps.map (fun e => e.name)) := by
  induction eps with
  | nil => intro i s _; rfl
  | cons e0 rest ih =>
    intro i s h
    unfold firstSuccess at h
    by_cases hs : fetchSuccess e0 (inp.results i).1
    · simp [hs] at h
    · simp [hs] at h
      unfold GuardedService.tryEndpoints
      cases hc : checkEndpoint e0 (inp.results i).1 with
      | ok v => exact absurd (by simp [fetchSuccess, hc]) hs
      | error msg =>
        simp only [ih (i + 1) _ h, failThroughState_cons, List.map_cons]

lemma guardedTryEndpoints_of_some (inp : ProbeInput)
    (eps : List ConnectivityEndpoint) :
    ∀ i s k e, firstSuccess inp eps i = some (k, e) →
      GuardedService.tryEndpoints inp eps i s =
        (GuardedService.applySuccess inp e k s, some (successStatus inp e k),
          (eps.take (k + 1 - i)).map (fun x => x.name)) := by
  induction eps with
  | nil => intro i s k e h; cases h
  | cons e0 rest ih =>
    intro i s k e h
    unfold firstSuccess at h
    by_cases hs : fetchSuccess e0 (inp.results i).1
    · simp [hs] at h
      obtain ⟨hk, he⟩ := h
      subst hk; subst he
      unfold GuardedService.tryEndpoints
      unfold fetchSuccess at hs
      cases hc : checkEndpoint e0 (inp.results i).1 with
      | ok v =>
        have h1 : i + 1 - i = 1 := by omega
        simp [h1, List.take]
      | error msg => rw [hc] at hs; simp at hs
    · simp [hs] at h
      have hik : i + 1 ≤ k := firstSuccess_le inp rest (i + 1) k e h
      unfold GuardedService.tryEndpoints
      cases hc : checkEndpoint e0 (inp.results i).1 with
      | ok v => exact absurd (by simp [fetchSuccess, hc]) hs
      | error msg =>
        simp only [ih (i + 1) _ k e h, guardedApplySuccess_update]
        have h1 : k + 1 - i = (k + 1 - (i + 1)) + 1 := by omega
        rw [h1, List.take_succ_cons, List.map_cons]

lemma firstSuccess_none_iff (inp : ProbeInput) (eps : List ConnectivityEndpoint) :
    ∀ i, firstSuccess inp eps i = none ↔
      ∀ j (hj : j < eps.length),
        fetchSuccess (eps.get ⟨j, hj⟩) ((inp.results (i + j)).1) = false := by
  induction eps with
  | nil => intro i; simp [firstSuccess]
  | cons e0 rest ih =>
    intro i
    unfold firstSuccess
    by_cases hs : fetchSuccess e0 (inp.results i).1
    · simp only [hs, if_true]
      constructor
      · intro h; cases h
      · intro h
        have h0 := h 0 (by simp)
        simp at h0
        rw [hs] at h0
        cases h0
    · simp only [hs, Bool.false_eq_true, if_false]
      rw [ih (i + 1)]
      constructor
      · intro h j hj
        cases j with
        | zero =>
          simpa using (Bool.eq_false_iff.mpr hs)
        | succ j' =>
          have hj' : j' < rest.length := by simpa using hj
          have := h j' hj'
          have harith : i + 1 + j' = i + (j' + 1) := by omega
          rw [harith] at this
          simpa using this
      · intro h j hj
        have hj1 : j + 1 < (e0 :: rest).length := by simpa using Nat.succ_lt_succ hj
        have := h (j + 1) hj1
        have harith : i + (j + 1) = i + 1 + j := by omega
        rw [harith] at this
        simpa using this

lemma firstSuccess_some_of (inp : ProbeInput) (eps : List ConnectivityEndpoint) :
    ∀ i k (hk : k < eps.length),
      (∀ j (hj : j < k), fetchSuccess (eps.get ⟨j, hj.trans hk⟩) ((inp.results (i + j)).1) = false) →
      fetchSuccess (eps.get ⟨k, hk⟩) ((inp.results (i + k)).1) = true →
      firstSuccess inp eps i = some (i + k, eps.get ⟨k, hk⟩) := by
  induction eps with
  | nil => intro i k hk; cases hk
  | cons e0 rest ih =>
    intro i k hk hfail hsucc
    unfold firstSuccess
    cases k with
    | zero =>
      simp at hsucc
      simp [hsucc]
    | succ k' =>
      have h0 : fetchSuccess e0 (inp.results i).1 = false := by
        have := hfail 0 (Nat.succ_pos k')
        simpa using this
      rw [h0]
      simp only [Bool.false_eq_true, if_false]
      have hk' : k' < rest.length := by simpa using hk
      have hfail' : ∀ j (hj : j < k'),
          fetchSuccess (rest.get ⟨j, hj.trans hk'⟩) ((inp.results (i + 1 + j)).1) = false := by
        intro j hj
        have := hfail (j + 1) (Nat.succ_lt_succ hj)
        have harith : i + (j + 1) = i + 1 + j := by omega
        rw [harith] at this
        simpa using this
      have hsucc' : fetchSuccess (rest.get ⟨k', hk'⟩) ((inp.results (i + 1 + k')).1) = true := by
        have harith : i + (k' + 1) = i + 1 + k' := by omega
        rw [harith] at hsucc
        simpa using hsucc
      have := ih (i + 1) k' hk' hfail' hsucc'
      rw [this]
      have harith : i + 1 + k' = i + (k' + 1) := by omega
      rw [harith]
      congr 1

lemma failThroughState_of_getLast (eps : List ConnectivityEndpoint)
    (s : ConnectivityState) (e : ConnectivityEndpoint) (h : eps.getLast? = some e) :
    failThroughState eps s = { s with currentEndpoint := some e.name } := by
  unfold failThroughState
  rw [h]

lemma failThroughState_nil (s : ConnectivityState) : failThroughState [] s = s := rfl

lemma failThroughState_fields (eps : List ConnectivityEndpoint) (s : ConnectivityState) :
    (failThroughState eps s).isOnline = s.isOnline ∧
    (failThroughState eps s).lastChecked = s.lastChecked ∧
    (failThroughState eps s).responseTime = s.responseTime ∧
    (failThroughState eps s).error = s.error ∧
    (failThroughState eps s).isChecking = s.isChecking ∧
    (failThroughState eps s).totalChecks = s.totalChecks ∧
    (failThroughState eps s).successfulChecks = s.successfulChecks ∧
    (failThroughState eps s).connectionHistory = s.connectionHistory ∧
    (failThroughState eps s).minResponseTime = s.minResponseTime ∧
    (failThroughState eps s).maxResponseTime = s.maxResponseTime := by
  unfold failThroughState
  cases eps.getLast? <;> exact ⟨rfl, rfl, rfl, rfl, rfl, rfl, rfl, rfl, rfl, rfl⟩

lemma ConnectivityService.checkConnectivity_eq_of_none (eps : List ConnectivityEndpoint)
    (inp : ProbeInput) (s : ConnectivityState) (h : firstSuccess inp eps 0 = none) :
    ConnectivityService.checkConnectivity eps inp s =
      (applyAllFailed inp (failThroughState eps
          { s with isChecking := true, error := none, totalChecks := s.totalChecks + 1 }),
        allFailedStatus inp, eps.map (fun e => e.name)) := by
  simp only [ConnectivityService.checkConnectivity]
  rw [tryEndpoints_of_none inp eps 0 _ h]

lemma ConnectivityService.checkConnectivity_eq_of_some (eps : List ConnectivityEndpoint)
    (inp : ProbeInput) (s : ConnectivityState) (k : Nat) (e : ConnectivityEndpoint)
    (h : firstSuccess inp eps 0 = some (k, e)) :
    ConnectivityService.checkConnectivity eps inp s =
      (applySuccess inp e k
          { s with isChecking := true, error := none, totalChecks := s.totalChecks + 1 },
        successStatus inp e k, (eps.take (k + 1)).map (fun x => x.name)) := by
  simp only [ConnectivityService.checkConnectivity]
  rw [tryEndpoints_of_some inp eps 0 _ k e h]
  simp

lemma GuardedService.checkConnectivity_of_isChecking (eps fallback : List ConnectivityEndpoint)
    (loc : WindowLocation) (inp : ProbeInput) (s : ConnectivityState)
    (h : s.isChecking = true) :
    GuardedService.checkConnectivity eps fallback loc inp s =
      (s, GuardedService.currentStatus s, [], false) := by
  unfold GuardedService.checkConnectivity
  rw [h]
  simp

lemma FallbackService.fallbackFlag_eq (eps fallback : List ConnectivityEndpoint)
    (loc : WindowLocation) (inp : ProbeInput) (s : ConnectivityState) :
    (FallbackService.checkConnectivity eps fallback loc inp s).2.2.2 =
      ((firstSuccess inp eps 0).isNone && shouldTryHttpFallback loc) := by
  simp only [FallbackService.checkConnectivity]
  cases h : firstSuccess inp eps 0 with
  | some p =>
    rw [tryEndpoints_of_some inp eps 0 _ p.1 p.2 (by rw [h])]
    simp
  | none =>
    rw [tryEndpoints_of_none inp eps 0 _ h]
    by_cases hp : shouldTryHttpFallback loc
    · simp only [hp]
      cases h2 : firstSuccess inp fallback eps.length with
      | some q =>
        rw [tryEndpoints_of_some inp fallback eps.length _ q.1 q.2 (by rw [h2])]
        simp
      | none =>
        rw [tryEndpoints_of_none inp fallback eps.length _ h2]
        simp
    · simp [hp]

/-! ### Field-level views of the state transformers -/

@[simp] lemma failThroughState_totalChecks (eps : List ConnectivityEndpoint)
    (s : ConnectivityState) : (failThroughState eps s).totalChecks = s.totalChecks :=
  (failThroughState_fields eps s).2.2.2.2.2.1

@[simp] lemma failThroughState_successfulChecks (eps : List ConnectivityEndpoint)
    (s : ConnectivityState) :
    (failThroughState eps s).successfulChecks = s.successfulChecks :=
  (failThroughState_fields eps s).2.2.2.2.2.2.1

@[simp] lemma failThroughState_connectionHistory (eps : List ConnectivityEndpoint)
    (s : ConnectivityState) :
    (failThroughState eps s).connectionHistory = s.connectionHistory :=
  (failThroughState_fields eps s).2.2.2.2.2.2.2.1

@[simp] lemma failThroughState_minResponseTime (eps : List ConnectivityEndpoint)
    (s : ConnectivityState) :
    (failThroughState eps s).minResponseTime = s.minResponseTime :=
  (failThroughState_fields eps s).2.2.2.2.2.2.2.2.1

@[simp] lemma failThroughState_maxResponseTime (eps : List ConnectivityEndpoint)
    (s : ConnectivityState) :
    (failThroughState eps s).maxResponseTime = s.maxResponseTime :=
  (failThroughState_fields eps s).2.2.2.2.2.2.2.2.2

/-- The success record appended to the history by the success path. -/
def successRecord (inp : ProbeInput) (e : ConnectivityEndpoint) (i : Nat) :
    ConnectionRecord :=
  { timestamp := inp.dateNow, isOnline := true
    responseTime := some ((inp.results i).2 - inp.startTime)
    endpoint := some e.name, error := none }

/-- The failure record appended to the history by the failure path. -/
def failureRecord (inp : ProbeInput) : ConnectionRecord :=
  { timestamp := inp.dateNow, isOnline := false, responseTime := none
    endpoint := none, error := some allFailedMsg }

lemma applySuccess_fields (inp : ProbeInput) (e : ConnectivityEndpoint) (i : Nat)
    (s : ConnectivityState) :
    applySuccess inp e i s =
      { isOnline := true
        lastChecked := some inp.dateNow
        responseTime := some ((inp.results i).2 - inp.startTime)
        currentEndpoint := some e.name
        error := s.error
        isChecking := false
        totalChecks := s.totalChecks
        successfulChecks := s.successfulChecks + 1
        connectionHistory := addToHistory s.connectionHistory (successRecord inp e i)
        minResponseTime := updateMinRT s.minResponseTime ((inp.results i).2 - inp.startTime)
        maxResponseTime := updateMaxRT s.maxResponseTime ((inp.results i).2 - inp.startTime) } :=
  rfl

lemma guardedApplySuccess_fields (inp : ProbeInput) (e : ConnectivityEndpoint)
    (i : Nat) (s : ConnectivityState) :
    GuardedService.applySuccess inp e i s =
      { isOnline := true
        lastChecked := some inp.dateNow
        responseTime := some ((inp.results i).2 - inp.startTime)
        currentEndpoint := some e.name
        error := s.error
        isChecking := s.isChecking
        totalChecks := s.totalChecks
        successfulChecks := s.successfulChecks + 1
        connectionHistory := addToHistory s.connectionHistory (successRecord inp e i)
        minResponseTime := updateMinRT s.minResponseTime ((inp.results i).2 - inp.startTime)
        maxResponseTime := updateMaxRT s.maxResponseTime ((inp.results i).2 - inp.startTime) } :=
  rfl

lemma applyAllFailed_fields (inp : ProbeInput) (s : ConnectivityState) :
    applyAllFailed inp s =
      { isOnline := false
        lastChecked := some inp.dateNow
        responseTime := none
        currentEndpoint := s.currentEndpoint
        error := some allFailedMsg
        isChecking := false
        totalChecks := s.totalChecks
        successfulChecks := s.successfulChecks
        connectionHistory := addToHistory s.connectionHistory (failureRecord inp)
        minResponseTime := s.minResponseTime
        maxResponseTime := s.maxResponseTime } :=
  rfl

lemma GuardedService.checkConnectivity_counters (eps fallback : List ConnectivityEndpoint)
    (loc : WindowLocation) (inp : ProbeInput) (s : ConnectivityState)
    (h : s.isChecking = false) :
    (GuardedService.checkConnectivity eps fallback loc inp s).1.totalChecks =
        s.totalChecks + 1 ∧
    ((GuardedService.checkConnectivity eps fallback loc inp s).2.1.isOnline = true →
      (GuardedService.checkConnectivity eps fallback loc inp s).1.successfulChecks =
        s.successfulChecks + 1) ∧
    ((GuardedService.checkConnectivity eps fallback loc inp s).2.1.isOnline = false →
      (GuardedService.checkConnectivity eps fallback loc inp s).1.successfulChecks =
        s.successfulChecks) ∧
    (GuardedService.checkConnectivity eps fallback loc inp s).1.isChecking = false := by
  simp only [GuardedService.checkConnectivity, h, Bool.false_eq_true, if_false]
  cases h1 : firstSuccess inp eps 0 with
  | some p =>
    rw [guardedTryEndpoints_of_some inp eps 0 _ p.1 p.2 (by rw [h1])]
    simp [guardedApplySuccess_fields, successStatus]
  | none =>
    rw [guardedTryEndpoints_of_none inp eps 0 _ h1]
    by_cases hp : shouldTryHttpFallback loc
    · simp only [hp, if_true]
      cases h2 : firstSuccess inp fallback eps.length with
      | some q =>
        rw [guardedTryEndpoints_of_some inp fallback eps.length _ q.1 q.2 (by rw [h2])]
        simp [guardedApplySuccess_fields, successStatus]
      | none =>
        rw [guardedTryEndpoints_of_none inp fallback eps.length _ h2]
        simp [applyAllFailed_fields, allFailedStatus]
    · simp [hp, applyAllFailed_fields, allFailedStatus]

lemma GuardedService.runProbes_counters (eps fallback : List ConnectivityEndpoint)
    (loc : WindowLocation) :
    ∀ (inputs : List ProbeInput) (s : ConnectivityState),
      s.successfulChecks ≤ s.totalChecks →
      (GuardedService.runProbes eps fallback loc inputs s).successfulChecks ≤
        (GuardedService.runProbes eps fallback loc inputs s).totalChecks := by
  intro inputs
  induction inputs with
  | nil => intro s hs; exact hs
  | cons inp rest ih =>
    intro s hs
    show (GuardedService.runProbes eps fallback loc rest
        (GuardedService.checkConnectivity eps fallback loc inp s).1).successfulChecks ≤ _
    apply ih
    cases hi : s.isChecking with
    | true =>
      rw [GuardedService.checkConnectivity_of_isChecking eps fallback loc inp s hi]
      exact hs
    | false =>
      obtain ⟨ht, hon, hoff, _⟩ :=
        GuardedService.checkConnectivity_counters eps fallback loc inp s hi
      cases ho : (GuardedService.checkConnectivity eps fallback loc inp s).2.1.isOnline with
      | true => rw [ht, hon ho]; omega
      | false => rw [ht, hoff ho]; omega

/-! ### Per-probe and per-run bookkeeping of the plain service -/

/-- The response time recorded by one probe of the plain service, if it
succeeds: settle time of the first successful attempt minus the probe's
start time. -/
def probeRt (eps : List ConnectivityEndpoint) (inp : ProbeInput) : Option Nat :=
  (firstSuccess inp eps 0).map (fun p => (inp.results p.1).2 - inp.startTime)

/-- The response times of the successful probes of a run, in order. -/
def successRts (eps : List ConnectivityEndpoint) (inputs : List ProbeInput) : List Nat :=
  inputs.filterMap (probeRt eps)

lemma addToHistory_length (history : List ConnectionRecord) (record : ConnectionRecord) :
    (addToHistory history record).length ≤ 100 := by
  simp only [addToHistory, List.length_drop, List.length_append, List.length_cons,
    List.length_nil]
  omega

lemma ConnectivityService.checkConnectivity_min (eps : List ConnectivityEndpoint)
    (inp : ProbeInput) (s : ConnectivityState) :
    (ConnectivityService.checkConnectivity eps inp s).1.minResponseTime =
      (match probeRt eps inp with
        | some rt => updateMinRT s.minResponseTime rt
        | none => s.minResponseTime) := by
  cases h : firstSuccess inp eps 0 with
  | some p =>
    rw [ConnectivityService.checkConnectivity_eq_of_some eps inp s p.1 p.2 (by rw [h])]
    simp [applySuccess_fields, probeRt, h]
  | none =>
    rw [ConnectivityService.checkConnectivity_eq_of_none eps inp s h]
    simp [applyAllFailed_fields, probeRt, h]

lemma ConnectivityService.checkConnectivity_max (eps : List ConnectivityEndpoint)
    (inp : ProbeInput) (s : ConnectivityState) :
    (ConnectivityService.checkConnectivity eps inp s).1.maxResponseTime =
      (match probeRt eps inp with
        | some rt => updateMaxRT s.maxResponseTime rt
        | none => s.maxResponseTime) := by
  cases h : firstSuccess inp eps 0 with
  | some p =>
    rw [ConnectivityService.checkConnectivity_eq_of_some eps inp s p.1 p.2 (by rw [h])]
    simp [applySuccess_fields, probeRt, h]
  | none =>
    rw [ConnectivityService.checkConnectivity_eq_of_none eps inp s h]
    simp [applyAllFailed_fields, probeRt, h]

lemma ConnectivityService.checkConnectivity_history_le (eps : List ConnectivityEndpoint)
    (inp : ProbeInput) (s : ConnectivityState) :
    (ConnectivityService.checkConnectivity eps inp s).1.connectionHistory.length ≤ 100 := by
  cases h : firstSuccess inp eps 0 with
  | some p =>
    rw [ConnectivityService.checkConnectivity_eq_of_some eps inp s p.1 p.2 (by rw [h])]
    simp only [applySuccess_fields]
    exact addToHistory_length _ _
  | none =>
    rw [ConnectivityService.checkConnectivity_eq_of_none eps inp s h]
    simp only [applyAllFailed_fields]
    exact addToHistory_length _ _

lemma ConnectivityService.runProbes_history_le (eps : List ConnectivityEndpoint) :
    ∀ (inputs : List ProbeInput) (s : ConnectivityState),
      s.connectionHistory.length ≤ 100 →
      (ConnectivityService.runProbes eps inputs s).connectionHistory.length ≤ 100 := by
  intro inputs
  induction inputs with
  | nil => intro s hs; exact hs
  | cons inp rest ih =>
    intro s _
    exact ih _ (ConnectivityService.checkConnectivity_history_le eps inp s)

lemma ConnectivityService.runProbes_min (eps : List ConnectivityEndpoint) :
    ∀ (inputs : List ProbeInput) (s : ConnectivityState),
      (ConnectivityService.runProbes eps inputs s).minResponseTime =
        (successRts eps inputs).foldl updateMinRT s.minResponseTime := by
  intro inputs
  induction inputs with
  | nil => intro s; rfl
  | cons inp rest ih =>
    intro s
    show (ConnectivityService.runProbes eps rest
        (ConnectivityService.checkConnectivity eps inp s).1).minResponseTime = _
    rw [ih]
    rw [show (ConnectivityService.checkConnectivity eps inp s).1.minResponseTime =
      (match probeRt eps inp with
        | some rt => updateMinRT s.minResponseTime rt
        | none => s.minResponseTime) from ConnectivityService.checkConnectivity_min eps inp s]
    cases h : probeRt eps inp with
    | some rt => simp [successRts, h]
    | none => simp [successRts, h]

lemma ConnectivityService.runProbes_max (eps : List ConnectivityEndpoint) :
    ∀ (inputs : List ProbeInput) (s : ConnectivityState),
      (ConnectivityService.runProbes eps inputs s).maxResponseTime =
        (successRts eps inputs).foldl updateMaxRT s.maxResponseTime := by
  intro inputs
  induction inputs with
  | nil => intro s; rfl
  | cons inp rest ih =>
    intro s
    show (ConnectivityService.runProbes eps rest
        (ConnectivityService.checkConnectivity eps inp s).1).maxResponseTime = _
    rw [ih]
    rw [show (ConnectivityService.checkConnectivity eps inp s).1.maxResponseTime =
      (match probeRt eps inp with
        | some rt => updateMaxRT s.maxResponseTime rt
        | none => s.maxResponseTime) from ConnectivityService.checkConnectivity_max eps inp s]
    cases h : probeRt eps inp with
    | some rt => simp [successRts, h]
    | none => simp [successRts, h]

lemma updateMinRT_char (cur : Option Nat) (x v : Nat) (h : updateMinRT cur x = some v) :
    (v = x ∨ cur = some v) ∧ v ≤ x ∧ ∀ c, cur = some c → v ≤ c := by
  cases cur with
  | none =>
    simp only [updateMinRT] at h
    injection h with h
    subst h
    exact ⟨Or.inl rfl, le_refl x, by intro c hc; cases hc⟩
  | some c =>
    simp only [updateMinRT] at h
    by_cases hlt : x < c
    · rw [if_pos hlt] at h
      injection h with h
      subst h
      exact ⟨Or.inl rfl, le_refl x, by intro c2 hc2; injection hc2 with hc2; omega⟩
    · rw [if_neg hlt] at h
      injection h with h
      subst h
      exact ⟨Or.inr rfl, by omega, by intro c2 hc2; injection hc2 with hc2; omega⟩

lemma updateMaxRT_char (cur : Option Nat) (x v : Nat) (h : updateMaxRT cur x = some v) :
    (v = x ∨ cur = some v) ∧ x ≤ v ∧ ∀ c, cur = some c → c ≤ v := by
  cases cur with
  | none =>
    simp only [updateMaxRT] at h
    injection h with h
    subst h
    exact ⟨Or.inl rfl, le_refl x, by intro c hc; cases hc⟩
  | some c =>
    simp only [updateMaxRT] at h
    by_cases hlt : x > c
    · rw [if_pos hlt] at h
      injection h with h
      subst h
      exact ⟨Or.inl rfl, le_refl x, by intro c2 hc2; injection hc2 with hc2; omega⟩
    · rw [if_neg hlt] at h
      injection h with h
      subst h
      exact ⟨Or.inr rfl, by omega, by intro c2 hc2; injection hc2 with hc2; omega⟩

lemma updateMinRT_ne_none (cur : Option Nat) (x : Nat) : updateMinRT cur x ≠ none := by
  cases cur with
  | none => simp [updateMinRT]
  | some c =>
    simp only [updateMinRT]
    by_cases hlt : x < c
    · rw [if_pos hlt]; simp
    · rw [if_neg hlt]; simp

lemma updateMaxRT_ne_none (cur : Option Nat) (x : Nat) : updateMaxRT cur x ≠ none := by
  cases cur with
  | none => simp [updateMaxRT]
  | some c =>
    simp only [updateMaxRT]
    by_cases hlt : x > c
    · rw [if_pos hlt]; simp
    · rw [if_neg hlt]; simp

lemma foldl_updateMinRT_char :
    ∀ (l : List Nat) (cur : Option Nat) (m : Nat),
      l.foldl updateMinRT cur = some m →
      (cur = some m ∨ m ∈ l) ∧ (∀ c, cur = some c → m ≤ c) ∧ ∀ x ∈ l, m ≤ x := by
  intro l
  induction l with
  | nil =>
    intro cur m h
    have h2 : cur = some m := h
    exact ⟨Or.inl h2, fun c hc => by rw [h2] at hc; injection hc with hc; omega, by simp⟩
  | cons x t ih =>
    intro cur m h
    have h' : t.foldl updateMinRT (updateMinRT cur x) = some m := h
    obtain ⟨hmem, hcur, hall⟩ := ih (updateMinRT cur x) m h'
    have hstep : ∀ v, updateMinRT cur x = some v →
        (v = x ∨ cur = some v) ∧ v ≤ x ∧ ∀ c, cur = some c → v ≤ c :=
      fun v hv => updateMinRT_char cur x v hv
    rcases hmem with hc | hmemt
    · obtain ⟨hvx, hvle, hvc⟩ := hstep m hc
      rcases hvx with h1 | h1
      · exact ⟨Or.inr (by simp [h1]), hvc, by
          intro y hy
          rcases List.mem_cons.mp hy with rfl | hyt
          · omega
          · exact hall y hyt⟩
      · exact ⟨Or.inl h1, hvc, by
          intro y hy
          rcases List.mem_cons.mp hy with rfl | hyt
          · omega
          · exact hall y hyt⟩
    · refine ⟨Or.inr (List.mem_cons_of_mem x hmemt), ?_, ?_⟩
      · intro c hc
        have hne := updateMinRT_ne_none cur x
        cases hu : updateMinRT cur x with
        | none => exact absurd hu hne
        | some v =>
          obtain ⟨_, _, hvc⟩ := hstep v hu
          have := hcur v hu
          have := hvc c hc
          omega
      · intro y hy
        rcases List.mem_cons.mp hy with rfl | hyt
        · have hne := updateMinRT_ne_none cur y
          cases hu : updateMinRT cur y with
          | none => exact absurd hu hne
          | some v =>
            obtain ⟨_, hvle, _⟩ := hstep v hu
            have := hcur v hu
            omega
        · exact hall y hyt

lemma foldl_updateMaxRT_char :
    ∀ (l : List Nat) (cur : Option Nat) (m : Nat),
      l.foldl updateMaxRT cur = some m →
      (cur = some m ∨ m ∈ l) ∧ (∀ c, cur = some c → c ≤ m) ∧ ∀ x ∈ l, x ≤ m := by
  intro l
  induction l with
  | nil =>
    intro cur m h
    have h2 : cur = some m := h
    exact ⟨Or.inl h2, fun c hc => by rw [h2] at hc; injection hc with hc; omega, by simp⟩
  | cons x t ih =>
    intro cur m h
    have h' : t.foldl updateMaxRT (updateMaxRT cur x) = some m := h
    obtain ⟨hmem, hcur, hall⟩ := ih (updateMaxRT cur x) m h'
    have hstep : ∀ v, updateMaxRT cur x = some v →
        (v = x ∨ cur = some v) ∧ x ≤ v ∧ ∀ c, cur = some c → c ≤ v :=
      fun v hv => updateMaxRT_char cur x v hv
    rcases hmem with hc | hmemt
    · obtain ⟨hvx, hvle, hvc⟩ := hstep m hc
      rcases hvx with h1 | h1
      · exact ⟨Or.inr (by simp [h1]), hvc, by
          intro y hy
          rcases List.mem_cons.mp hy with rfl | hyt
          · omega
          · exact hall y hyt⟩
      · exact ⟨Or.inl h1, hvc, by
          intro y hy
          rcases List.mem_cons.mp hy with rfl | hyt
          · omega
          · exact hall y hyt⟩
    · refine ⟨Or.inr (List.mem_cons_of_mem x hmemt), ?_, ?_⟩
      · intro c hc
        have hne := updateMaxRT_ne_none cur x
        cases hu : updateMaxRT cur x with
        | none => exact absurd hu hne
        | some v =>
          obtain ⟨_, _, hvc⟩ := hstep v hu
          have := hcur v hu
          have := hvc c hc
          omega
      · intro y hy
        rcases List.mem_cons.mp hy with rfl | hyt
        · have hne := updateMaxRT_ne_none cur y
          cases hu : updateMaxRT cur y with
          | none => exact absurd hu hne
          | some v =>
            obtain ⟨_, hvle, _⟩ := hstep v hu
            have := hcur v hu
            omega
        · exact hall y hyt

lemma foldl_updateMinRT_eq_none_iff :
    ∀ (l : List Nat) (cur : Option Nat),
      l.foldl updateMinRT cur = none ↔ (cur = none ∧ l = []) := by
  intro l
  induction l with
  | nil => intro cur; simp
  | cons x t ih =>
    intro cur
    constructor
    · intro h
      have := (ih (updateMinRT cur x)).mp h
      exact absurd this.1 (updateMinRT_ne_none cur x)
    · intro h
      cases h.2

lemma foldl_updateMaxRT_eq_none_iff :
    ∀ (l : List Nat) (cur : Option Nat),
      l.foldl updateMaxRT cur = none ↔ (cur = none ∧ l = []) := by
  intro l
  induction l with
  | nil => intro cur; simp
  | cons x t ih =>
    intro cur
    constructor
    · intro h
      have := (ih (updateMaxRT cur x)).mp h
      exact absurd this.1 (updateMaxRT_ne_none cur x)
    · intro h
      cases h.2

lemma foldl_add_getD (l : List ConnectionRecord) :
    ∀ a : Nat, l.foldl (fun sum r => sum + r.responseTime.getD 0) a =
      a + (l.map (fun r => r.responseTime.getD 0)).sum := by
  induction l with
  | nil => intro a; simp
  | cons r t ih =>
    intro a
    simp only [List.foldl_cons, List.map_cons, List.sum_cons, ih]
    omega

/-- A successful connection record with the given response time, as
produced by the success path against the Google endpoint. -/
def demoSuccessRecord (rt : Nat) : ConnectionRecord :=
  { timestamp := rt, isOnline := true, responseTime := some rt
    endpoint := some "Google", error := none }

/-! ### The claims -/

/-- C6.  In every state, `uptimePercentage` coincides with
`successRate`, and both equal `round(100 * successfulChecks /
totalChecks)` when `totalChecks > 0` and `0` when `totalChecks = 0`. -/
theorem uptime_eq_successRate_eq_round (total successful : Nat) :
    uptimePercentage total successful = successRate total successful ∧
    (total = 0 → uptimePercentage total successful = 0) ∧
    (0 < total → uptimePercentage total successful =
      jsRound (100 * (successful : ℚ) / (total : ℚ))) := by
  refine ⟨rfl, ?_, ?_⟩
  · intro h
    simp [uptimePercentage, h]
  · intro h
    unfold uptimePercentage
    rw [if_pos h]
    congr 1
    ring

/-- Witness for C6 at `totalChecks = 3`, `successfulChecks = 2`:
both percentages are `round(200/3) = 67`. -/
theorem uptime_eq_successRate_eq_round_witness :
    (0 < 3 ∧ uptimePercentage 3 2 = jsRound (100 * (2 : ℚ) / (3 : ℚ))) ∧
    uptimePercentage 3 2 = 67 ∧ successRate 3 2 = 67 := by
  refine ⟨⟨by norm_num, (uptime_eq_successRate_eq_round 3 2).2.2 (by norm_num)⟩, ?_, ?_⟩ <;>
    norm_num [uptimePercentage, successRate, jsRound]

/-- C3.  The history is bounded by 100 in every reachable state; an
append to a history of exactly 100 records evicts precisely the oldest
record, keeping the rest in their original relative order followed by
the new record. -/
theorem history_bounded_and_fifo :
    (∀ (history : List ConnectionRecord) (record : ConnectionRecord),
      (addToHistory history record).length ≤ 100) ∧
    (∀ (history : List ConnectionRecord) (record : ConnectionRecord),
      history.length = 100 →
      addToHistory history record = history.tail ++ [record]) ∧
    (∀ (eps : List ConnectivityEndpoint) (inputs : List ProbeInput) (nav : Bool),
      (ConnectivityService.runProbes eps inputs
          (initialState nav)).connectionHistory.length ≤ 100) := by
  refine ⟨addToHistory_length, ?_, ?_⟩
  · intro history record hlen
    simp only [addToHistory]
    have h1 : (history ++ [record]).length - 100 = 1 := by
      simp [hlen]
    rw [h1]
    rw [List.drop_append_of_le_length (by omega)]
    rw [List.drop_one]
  · intro eps inputs nav
    exact ConnectivityService.runProbes_history_le eps inputs (initialState nav) (by simp [initialState])

/-- Witness for C3: appending to a history of exactly 100 records drops
the oldest one. -/
theorem history_bounded_and_fifo_witness :
    (List.replicate 100 (demoSuccessRecord 7)).length = 100 ∧
    addToHistory (List.replicate 100 (demoSuccessRecord 7)) (demoSuccessRecord 9) =
      (List.replicate 100 (demoSuccessRecord 7)).tail ++ [demoSuccessRecord 9] :=
  ⟨by simp, history_bounded_and_fifo.2.1 _ _ (by simp)⟩

/-- The probe input of a probe in which every fetch resolves opaquely at
time `endTime`, with probe start time `startTime` and date `dateNow`. -/
def opaqueProbe (startTime endTime dateNow : Nat) : ProbeInput :=
  { results := fun _ => (FetchResult.opaqueResponse, endTime)
    startTime := startTime, dateNow := dateNow }

/-- Counterexample to C7 as stated.  A run of two successful probes,
the first taking 0 ms and the second 100 ms, is reachable; on its
history the service's `averageResponseTime` is 100, while the rounded
mean of the response times of the successful records is 50: the code's
truthiness filter `r.isOnline && r.responseTime` silently drops
successful records whose response time is 0. -/
theorem averageResponseTime_mean_counterexample :
    (ConnectivityService.runProbes ConnectivityService.endpoints
        [opaqueProbe 5 5 100, opaqueProbe 50 150 200]
        (initialState true)).connectionHistory =
      [{ timestamp := 100, isOnline := true, responseTime := some 0
         endpoint := some "Google", error := none },
       { timestamp := 200, isOnline := true, responseTime := some 100
         endpoint := some "Google", error := none }] ∧
    averageResponseTime
      (ConnectivityService.runProbes ConnectivityService.endpoints
        [opaqueProbe 5 5 100, opaqueProbe 50 150 200]
        (initialState true)).connectionHistory = 100 ∧
    averageResponseTimeSpec
      (ConnectivityService.runProbes ConnectivityService.endpoints
        [opaqueProbe 5 5 100, opaqueProbe 50 150 200]
        (initialState true)).connectionHistory = 50 := by
  have hhist : (ConnectivityService.runProbes ConnectivityService.endpoints
      [opaqueProbe 5 5 100, opaqueProbe 50 150 200]
      (initialState true)).connectionHistory =
    [{ timestamp := 100, isOnline := true, responseTime := some 0
       endpoint := some "Google", error := none },
     { timestamp := 200, isOnline := true, responseTime := some 100
       endpoint := some "Google", error := none }] := by decide
  refine ⟨hhist, ?_, ?_⟩
  · rw [hhist]
    simp +decide only [averageResponseTime, rtTruthy, List.filter_cons, List.filter_nil]
    norm_num [jsRound]
  · rw [hhist]
    simp +decide only [averageResponseTimeSpec, List.filter_cons, List.filter_nil]
    norm_num [jsRound]

/-- C7 as amended.  `averageResponseTime` equals the rounded arithmetic
mean of the response times of the records that are successful AND have
a truthy (non-null, nonzero) response time, and equals 0 when no such
record exists. -/
theorem averageResponseTime_amended (history : List ConnectionRecord) :
    (history.filter (fun r => r.isOnline && rtTruthy r.responseTime) = [] →
      averageResponseTime history = 0) ∧
    (history.filter (fun r => r.isOnline && rtTruthy r.responseTime) ≠ [] →
      averageResponseTime history =
        jsRound
          ((((history.filter (fun r => r.isOnline && rtTruthy r.responseTime)).map
              (fun r => r.responseTime.getD 0)).sum : ℚ) /
            ((history.filter (fun r => r.isOnline && rtTruthy r.responseTime)).length : ℚ))) := by
  constructor
  · intro h
    unfold averageResponseTime
    rw [h]
    simp
  · intro h
    unfold averageResponseTime
    have hlen : (history.filter (fun r => r.isOnline && rtTruthy r.responseTime)).length ≠ 0 := by
      simpa [List.length_eq_zero] using h
    rw [if_neg hlen]
    rw [foldl_add_getD]
    push_cast
    simp [Function.comp_def]

/-- Witness for the amended C7: over the successful records with
response times [100, 200, 300] the average is `round(600/3) = 200`. -/
theorem averageResponseTime_amended_witness :
    ([demoSuccessRecord 100, demoSuccessRecord 200, demoSuccessRecord 300].filter
        (fun r => r.isOnline && rtTruthy r.responseTime) ≠ []) ∧
    averageResponseTime
      [demoSuccessRecord 100, demoSuccessRecord 200, demoSuccessRecord 300] = 200 := by
  refine ⟨by decide, ?_⟩
  rw [(averageResponseTime_amended
    [demoSuccessRecord 100, demoSuccessRecord 200, demoSuccessRecord 300]).2 (by decide)]
  simp +decide only [demoSuccessRecord, rtTruthy, List.filter_cons, List.filter_nil]
  norm_num [jsRound]

/-- A window location outside the fallback policy (HTTPS, non-localhost). -/
def demoLoc : WindowLocation := { protocol := "https:", hostname := "app.example.com" }

/-- A probe input in which every fetch rejects with a network error. -/
def failProbe : ProbeInput :=
  { results := fun _ => (FetchResult.fetchFailure "net down", 0)
    startTime := 0, dateNow := 42 }

/-- C1.  A `checkConnectivity()` call of the guarded service that finds
`isChecking` already true is a no-op: the state is returned untouched
(in particular `totalChecks` and the history are unchanged), the
returned status is the current in-flight view of the state, and no
endpoint is attempted. -/
theorem reentrant_probe_is_noop (eps fallback : List ConnectivityEndpoint)
    (loc : WindowLocation) (inp : ProbeInput) (s : ConnectivityState)
    (h : s.isChecking = true) :
    GuardedService.checkConnectivity eps fallback loc inp s =
        (s, GuardedService.currentStatus s, [], false) ∧
    (GuardedService.checkConnectivity eps fallback loc inp s).1.totalChecks =
        s.totalChecks ∧
    (GuardedService.checkConnectivity eps fallback loc inp s).1.connectionHistory =
        s.connectionHistory ∧
    (GuardedService.checkConnectivity eps fallback loc inp s).2.2.1 = [] := by
  have heq := GuardedService.checkConnectivity_of_isChecking eps fallback loc inp s h
  exact ⟨heq, by rw [heq], by rw [heq], by rw [heq]⟩

/-- Witness for C1: a reentrant call on a concrete mid-probe state. -/
theorem reentrant_probe_is_noop_witness :
    ({ initialState true with isChecking := true } : ConnectivityState).isChecking = true ∧
    GuardedService.checkConnectivity httpsEndpoints httpFallbackEndpoints demoLoc
        (opaqueProbe 0 5 9) { initialState true with isChecking := true } =
      ({ initialState true with isChecking := true },
        GuardedService.currentStatus { initialState true with isChecking := true },
        [], false) :=
  ⟨rfl, (reentrant_probe_is_noop httpsEndpoints httpFallbackEndpoints demoLoc
    (opaqueProbe 0 5 9) { initialState true with isChecking := true } rfl).1⟩

/-- C2.  Every completed (non-reentrant-skipped) `checkConnectivity()`
call of the guarded service increments `totalChecks` by exactly one and
`successfulChecks` by one exactly when the probe succeeded; and along
every probe sequence from the initial state,
`successfulChecks ≤ totalChecks`. -/
theorem checks_counting_and_invariant (eps fallback : List ConnectivityEndpoint)
    (loc : WindowLocation) :
    (∀ (inp : ProbeInput) (s : ConnectivityState), s.isChecking = false →
      (GuardedService.checkConnectivity eps fallback loc inp s).1.totalChecks =
          s.totalChecks + 1 ∧
      ((GuardedService.checkConnectivity eps fallback loc inp s).2.1.isOnline = true →
        (GuardedService.checkConnectivity eps fallback loc inp s).1.successfulChecks =
          s.successfulChecks + 1) ∧
      ((GuardedService.checkConnectivity eps fallback loc inp s).2.1.isOnline = false →
        (GuardedService.checkConnectivity eps fallback loc inp s).1.successfulChecks =
          s.successfulChecks)) ∧
    (∀ (inputs : List ProbeInput) (nav : Bool),
      (GuardedService.runProbes eps fallback loc inputs
          (initialState nav)).successfulChecks ≤
        (GuardedService.runProbes eps fallback loc inputs
          (initialState nav)).totalChecks) := by
  constructor
  · intro inp s h
    obtain ⟨ht, hon, hoff, _⟩ :=
      GuardedService.checkConnectivity_counters eps fallback loc inp s h
    exact ⟨ht, hon, hoff⟩
  · intro inputs nav
    exact GuardedService.runProbes_counters eps fallback loc inputs
      (initialState nav) (by simp [initialState])

/-- Witness for C2: from the initial state, one probe bumps
`totalChecks` from 0 to 1. -/
theorem checks_counting_and_invariant_witness :
    (initialState true).isChecking = false ∧
    (GuardedService.checkConnectivity httpsEndpoints httpFallbackEndpoints demoLoc
        (opaqueProbe 0 5 9) (initialState true)).1.totalChecks =
      (initialState true).totalChecks + 1 :=
  ⟨rfl, ((checks_counting_and_invariant httpsEndpoints httpFallbackEndpoints demoLoc).1
    (opaqueProbe 0 5 9) (initialState true) rfl).1⟩

/-- C4.  When every endpoint attempt of a probe of the plain service
fails, the probe goes offline, stamps `lastChecked`, nulls
`responseTime`, reports exactly "All connectivity endpoints failed",
appends exactly one failure record (offline, null response time, null
endpoint), increments `totalChecks` but not `successfulChecks`, and
clears `isChecking`. -/
theorem all_endpoints_failed_path (eps : List ConnectivityEndpoint) (inp : ProbeInput)
    (s : ConnectivityState)
    (hfail : ∀ j (hj : j < eps.length),
      fetchSuccess (eps.get ⟨j, hj⟩) ((inp.results j).1) = false) :
    (ConnectivityService.checkConnectivity eps inp s).1.isOnline = false ∧
    (ConnectivityService.checkConnectivity eps inp s).1.lastChecked = some inp.dateNow ∧
    (ConnectivityService.checkConnectivity eps inp s).1.responseTime = none ∧
    (ConnectivityService.checkConnectivity eps inp s).1.error =
      some "All connectivity endpoints failed" ∧
    (ConnectivityService.checkConnectivity eps inp s).1.connectionHistory =
      addToHistory s.connectionHistory
        { timestamp := inp.dateNow, isOnline := false, responseTime := none
          endpoint := none, error := some "All connectivity endpoints failed" } ∧
    (ConnectivityService.checkConnectivity eps inp s).1.totalChecks = s.totalChecks + 1 ∧
    (ConnectivityService.checkConnectivity eps inp s).1.successfulChecks =
      s.successfulChecks ∧
    (ConnectivityService.checkConnectivity eps inp s).1.isChecking = false ∧
    (ConnectivityService.checkConnectivity eps inp s).2.1 =
      { isOnline := false, lastChecked := some inp.dateNow, responseTime := none
        endpoint := none, error := some "All connectivity endpoints failed" } := by
  have hnone : firstSuccess inp eps 0 = none := by
    rw [firstSuccess_none_iff]
    intro j hj
    simpa using hfail j hj
  have heq := ConnectivityService.checkConnectivity_eq_of_none eps inp s hnone
  rw [heq]
  simp [applyAllFailed_fields, allFailedStatus, failureRecord, allFailedMsg]

/-- Witness for C4: all four compiled-in endpoints reject. -/
theorem all_endpoints_failed_path_witness :
    (∀ j (hj : j < ConnectivityService.endpoints.length),
      fetchSuccess (ConnectivityService.endpoints.get ⟨j, hj⟩)
        ((failProbe.results j).1) = false) ∧
    (ConnectivityService.checkConnectivity ConnectivityService.endpoints failProbe
        (initialState true)).2.1 =
      { isOnline := false, lastChecked := some 42, responseTime := none
        endpoint := none, error := some "All connectivity endpoints failed" } :=
  ⟨by decide,
    (all_endpoints_failed_path ConnectivityService.endpoints failProbe
      (initialState true) (by decide)).2.2.2.2.2.2.2.2⟩

lemma fetchSuccess_iff (e : ConnectivityEndpoint) (r : FetchResult) :
    fetchSuccess e r = true ↔
      (r = FetchResult.opaqueResponse ∨
        ∃ c, r = FetchResult.status c ∧ c ∈ e.expectedStatus) := by
  cases r with
  | opaqueResponse => simp [fetchSuccess, checkEndpoint]
  | status c =>
    simp only [fetchSuccess, checkEndpoint]
    by_cases hc : e.expectedStatus.contains c
    · simp only [hc, if_true]
      simp at hc
      simp [hc]
    · simp only [hc, Bool.false_eq_true, if_false]
      simp at hc
      simp [hc]
  | fetchFailure msg => simp [fetchSuccess, checkEndpoint]

/-- C5.  Within one probe of the plain service, endpoints are attempted
in declared order, each at most once, and the probe stops at the first
endpoint whose attempt succeeds — success being an opaque response or a
status in the endpoint's accepted set, any thrown error advancing to
the next endpoint.  If the first success is at position `k`, the
attempt trace is exactly the names of the first `k+1` endpoints, the
state goes online with that endpoint current, the response time is the
elapsed time since the probe start, and exactly one success record is
appended. -/
theorem first_success_wins (eps : List ConnectivityEndpoint) (inp : ProbeInput)
    (s : ConnectivityState) (k : Nat) (hk : k < eps.length)
    (hfail : ∀ j (hj : j < k),
      fetchSuccess (eps.get ⟨j, hj.trans hk⟩) ((inp.results j).1) = false)
    (hsucc : fetchSuccess (eps.get ⟨k, hk⟩) ((inp.results k).1) = true) :
    (ConnectivityService.checkConnectivity eps inp s).2.2 =
      (eps.take (k + 1)).map (fun x => x.name) ∧
    (ConnectivityService.checkConnectivity eps inp s).1.isOnline = true ∧
    (ConnectivityService.checkConnectivity eps inp s).1.currentEndpoint =
      some (eps.get ⟨k, hk⟩).name ∧
    (ConnectivityService.checkConnectivity eps inp s).1.responseTime =
      some ((inp.results k).2 - inp.startTime) ∧
    (ConnectivityService.checkConnectivity eps inp s).1.successfulChecks =
      s.successfulChecks + 1 ∧
    (ConnectivityService.checkConnectivity eps inp s).1.connectionHistory =
      addToHistory s.connectionHistory (successRecord inp (eps.get ⟨k, hk⟩) k) ∧
    (successRecord inp (eps.get ⟨k, hk⟩) k).isOnline = true ∧
    (ConnectivityService.checkConnectivity eps inp s).2.1 =
      successStatus inp (eps.get ⟨k, hk⟩) k ∧
    (∀ (e : ConnectivityEndpoint) (r : FetchResult), fetchSuccess e r = true ↔
      (r = FetchResult.opaqueResponse ∨
        ∃ c, r = FetchResult.status c ∧ c ∈ e.expectedStatus)) := by
  have hsome : firstSuccess inp eps 0 = some (k, eps.get ⟨k, hk⟩) := by
    have := firstSuccess_some_of inp eps 0 k hk
      (by intro j hj; simpa using hfail j hj) (by simpa using hsucc)
    simpa using this
  have heq := ConnectivityService.checkConnectivity_eq_of_some eps inp s k _ hsome
  rw [heq]
  exact ⟨rfl, rfl, rfl, rfl, rfl, rfl, rfl, rfl, fetchSuccess_iff⟩

/-- The probe input of the C5 scenario: the first attempt rejects (for
example a timeout abort), the second resolves with readable status 204
at time 80, with probe start time 30. -/
def secondSucceedsProbe : ProbeInput :=
  { results := fun i =>
      if i = 1 then (FetchResult.status 204, 80) else (FetchResult.fetchFailure "timeout", 99)
    startTime := 30, dateNow := 7 }

/-- Witness for C5: endpoint 1 (Google) fails, endpoint 2 (Cloudflare)
answers 204; the probe goes online via Cloudflare with response time
50 ≥ 0 after attempting exactly Google then Cloudflare. -/
theorem first_success_wins_witness :
    (1 < ConnectivityService.endpoints.length ∧
      fetchSuccess (ConnectivityService.endpoints.get ⟨1, by decide⟩)
        ((secondSucceedsProbe.results 1).1) = true) ∧
    (ConnectivityService.checkConnectivity ConnectivityService.endpoints
        secondSucceedsProbe (initialState false)).2.2 = ["Google", "Cloudflare"] ∧
    (ConnectivityService.checkConnectivity ConnectivityService.endpoints
        secondSucceedsProbe (initialState false)).1.isOnline = true ∧
    (ConnectivityService.checkConnectivity ConnectivityService.endpoints
        secondSucceedsProbe (initialState false)).1.currentEndpoint = some "Cloudflare" ∧
    (ConnectivityService.checkConnectivity ConnectivityService.endpoints
        secondSucceedsProbe (initialState false)).1.responseTime = some 50 := by
  have h := first_success_wins ConnectivityService.endpoints secondSucceedsProbe
    (initialState false) 1 (by decide) (by decide) (by decide)
  exact ⟨⟨by decide, by decide⟩, h.1, h.2.1, h.2.2.1, h.2.2.2.1⟩

/-- C10.  The failure path of the plain service's probe never resets
`currentEndpoint`: after a probe in which every endpoint fails, it
still holds the last attempted endpoint's name (or its prior value for
an empty list), so the state shows `isOnline = false` together with a
non-null `currentEndpoint`, even though the appended failure record has
`endpoint = null`. -/
theorem failure_keeps_currentEndpoint (eps : List ConnectivityEndpoint)
    (inp : ProbeInput) (s : ConnectivityState)
    (hfail : ∀ j (hj : j < eps.length),
      fetchSuccess (eps.get ⟨j, hj⟩) ((inp.results j).1) = false) :
    (∀ e, eps.getLast? = some e →
      (ConnectivityService.checkConnectivity eps inp s).1.currentEndpoint =
        some e.name) ∧
    (eps = [] →
      (ConnectivityService.checkConnectivity eps inp s).1.currentEndpoint =
        s.currentEndpoint) ∧
    (ConnectivityService.checkConnectivity eps inp s).1.isOnline = false ∧
    (ConnectivityService.checkConnectivity eps inp s).1.connectionHistory =
      addToHistory s.connectionHistory (failureRecord inp) ∧
    (failureRecord inp).endpoint = none := by
  have hnone : firstSuccess inp eps 0 = none := by
    rw [firstSuccess_none_iff]
    intro j hj
    simpa using hfail j hj
  have heq := ConnectivityService.checkConnectivity_eq_of_none eps inp s hnone
  rw [heq]
  refine ⟨?_, ?_, rfl, by simp [applyAllFailed_fields], rfl⟩
  · intro e he
    rw [applyAllFailed_fields]
    simp only [failThroughState_of_getLast eps _ e he]
  · intro he
    subst he
    rw [applyAllFailed_fields]
    simp [failThroughState_nil]

/-- Witness for C10: all endpoints reject; `currentEndpoint` still
names Ubuntu (the last endpoint) while the state is offline. -/
theorem failure_keeps_currentEndpoint_witness :
    ConnectivityService.endpoints.getLast? =
      some { name := "Ubuntu", url := "http://connectivity-check.ubuntu.com"
             expectedStatus := [200], timeout := some 3000 } ∧
    (ConnectivityService.checkConnectivity ConnectivityService.endpoints failProbe
        (initialState true)).1.currentEndpoint = some "Ubuntu" ∧
    (ConnectivityService.checkConnectivity ConnectivityService.endpoints failProbe
        (initialState true)).1.isOnline = false := by
  have h := failure_keeps_currentEndpoint ConnectivityService.endpoints failProbe
    (initialState true) (by decide)
  exact ⟨by decide,
    h.1 { name := "Ubuntu", url := "http://connectivity-check.ubuntu.com"
          expectedStatus := [200], timeout := some 3000 } (by decide),
    h.2.2.1⟩

/-- C9.  The HTTP fallback endpoint list is entered if and only if the
primary list was fully exhausted without a success AND the policy
predicate — a pure check of `window.location`: page served over plain
HTTP, or hostname `localhost` — holds.  `shouldTryHttpFallback` takes
only the location as input, so it cannot perform a network call. -/
theorem fallback_iff_exhausted_and_policy (eps fallback : List ConnectivityEndpoint)
    (loc : WindowLocation) (inp : ProbeInput) (s : ConnectivityState) :
    (FallbackService.checkConnectivity eps fallback loc inp s).2.2.2 = true ↔
      ((∀ j (hj : j < eps.length),
          fetchSuccess (eps.get ⟨j, hj⟩) ((inp.results j).1) = false) ∧
        (loc.protocol = "http:" ∨ loc.hostname = "localhost")) := by
  rw [FallbackService.fallbackFlag_eq]
  constructor
  · intro h
    simp only [Bool.and_eq_true, Option.isNone_iff_eq_none] at h
    constructor
    · intro j hj
      have := (firstSuccess_none_iff inp eps 0).mp h.1 j hj
      simpa using this
    · have hp := h.2
      simpa [shouldTryHttpFallback] using hp
  · rintro ⟨hall, hpol⟩
    have hnone : firstSuccess inp eps 0 = none := by
      rw [firstSuccess_none_iff]
      intro j hj
      simpa using hall j hj
    simp [hnone, shouldTryHttpFallback, hpol]

/-- Witness for C9: with every primary fetch rejecting and the page
served from `http://localhost`, the fallback list is entered. -/
theorem fallback_iff_exhausted_and_policy_witness :
    (FallbackService.checkConnectivity httpsEndpoints httpFallbackEndpoints
        { protocol := "http:", hostname := "localhost" } failProbe
        (initialState true)).2.2.2 = true :=
  (fallback_iff_exhausted_and_policy httpsEndpoints httpFallbackEndpoints
    { protocol := "http:", hostname := "localhost" } failProbe
    (initialState true)).mpr ⟨by decide, Or.inl rfl⟩

/-- C8.  `minResponseTime` and `maxResponseTime` are lifetime running
extrema over the response times of all successful probes of a run: they
are `none` exactly when no probe succeeded, and otherwise the minimum
respectively maximum of every successful response time of the run —
including those whose records were already evicted from the bounded
history, since `updateResponseTimeTracking` never reads
`connectionHistory` (last two conjuncts). -/
theorem minmax_lifetime_extrema (eps : List ConnectivityEndpoint)
    (inputs : List ProbeInput) (nav : Bool) :
    ((ConnectivityService.runProbes eps inputs (initialState nav)).minResponseTime =
        none ↔ successRts eps inputs = []) ∧
    (∀ m, (ConnectivityService.runProbes eps inputs (initialState nav)).minResponseTime =
        some m → m ∈ successRts eps inputs ∧ ∀ x ∈ successRts eps inputs, m ≤ x) ∧
    ((ConnectivityService.runProbes eps inputs (initialState nav)).maxResponseTime =
        none ↔ successRts eps inputs = []) ∧
    (∀ m, (ConnectivityService.runProbes eps inputs (initialState nav)).maxResponseTime =
        some m → m ∈ successRts eps inputs ∧ ∀ x ∈ successRts eps inputs, x ≤ m) ∧
    (∀ (s : ConnectivityState) (rt : Nat) (other : List ConnectionRecord),
      (updateResponseTimeTracking { s with connectionHistory := other } rt).minResponseTime =
        (updateResponseTimeTracking s rt).minResponseTime) ∧
    (∀ (s : ConnectivityState) (rt : Nat) (other : List ConnectionRecord),
      (updateResponseTimeTracking { s with connectionHistory := other } rt).maxResponseTime =
        (updateResponseTimeTracking s rt).maxResponseTime) := by
  rw [ConnectivityService.runProbes_min, ConnectivityService.runProbes_max]
  refine ⟨?_, ?_, ?_, ?_, fun s rt other => rfl, fun s rt other => rfl⟩
  · rw [show (initialState nav).minResponseTime = none from rfl]
    rw [foldl_updateMinRT_eq_none_iff]
    simp
  · intro m hm
    rw [show (initialState nav).minResponseTime = none from rfl] at hm
    obtain ⟨hmem, _, hall⟩ := foldl_updateMinRT_char (successRts eps inputs) none m hm
    rcases hmem with hc | hmem
    · cases hc
    · exact ⟨hmem, hall⟩
  · rw [show (initialState nav).maxResponseTime = none from rfl]
    rw [foldl_updateMaxRT_eq_none_iff]
    simp
  · intro m hm
    rw [show (initialState nav).maxResponseTime = none from rfl] at hm
    obtain ⟨hmem, _, hall⟩ := foldl_updateMaxRT_char (successRts eps inputs) none m hm
    rcases hmem with hc | hmem
    · cases hc
    · exact ⟨hmem, hall⟩

/-- Witness for C8: three successful probes with response times
[50, 200, 30] leave `minResponseTime = 30` and
`maxResponseTime = 200`. -/
theorem minmax_lifetime_extrema_witness :
    successRts ConnectivityService.endpoints
      [opaqueProbe 0 50 1, opaqueProbe 0 200 2, opaqueProbe 0 30 3] = [50, 200, 30] ∧
    (ConnectivityService.runProbes ConnectivityService.endpoints
      [opaqueProbe 0 50 1, opaqueProbe 0 200 2, opaqueProbe 0 30 3]
      (initialState true)).minResponseTime = some 30 ∧
    (30 ∈ successRts ConnectivityService.endpoints
        [opaqueProbe 0 50 1, opaqueProbe 0 200 2, opaqueProbe 0 30 3] ∧
      ∀ x ∈ successRts ConnectivityService.endpoints
        [opaqueProbe 0 50 1, opaqueProbe 0 200 2, opaqueProbe 0 30 3], 30 ≤ x) ∧
    (ConnectivityService.runProbes ConnectivityService.endpoints
      [opaqueProbe 0 50 1, opaqueProbe 0 200 2, opaqueProbe 0 30 3]
      (initialState true)).maxResponseTime = some 200 ∧
    (200 ∈ successRts ConnectivityService.endpoints
        [opaqueProbe 0 50 1, opaqueProbe 0 200 2, opaqueProbe 0 30 3] ∧
      ∀ x ∈ successRts ConnectivityService.endpoints
        [opaqueProbe 0 50 1, opaqueProbe 0 200 2, opaqueProbe 0 30 3], x ≤ 200) := by
  have h := minmax_lifetime_extrema ConnectivityService.endpoints
    [opaqueProbe 0 50 1, opaqueProbe 0 200 2, opaqueProbe 0 30 3] true
  exact ⟨by decide, by decide, h.2.1 30 (by decide), by decide, h.2.2.2.1 200 (by decide)⟩
